import Mathlib

/-!
Shallow embedding of `custom_components/bosch/water_heater.py`
(class `BoschWaterHeater`), a Home Assistant water-heater entity wrapper
around a Bosch DHW circuit object, together with theorems checking the
natural-language specification of the module against this embedding.

Python values reaching the comparisons in the source are heterogeneous
(strings, numbers, `None`), so we model them with an explicit `PyVal`
type carrying Python truthiness.  Device reads are modelled by a record
`DhwCircuit` of the fields the wrapper reads; the mutable `self._*`
attributes form the record `HeaterState`.  Methods become pure functions
returning the new state together with their observable effects (number
of `async_schedule_update_ha_state` calls, list of `set_temperature`
calls forwarded to the device, whether an error was logged).
-/

/-- A Python value as it appears in the comparisons of the source module:
`None`, a string, or a number (modelled as a rational). -/
inductive PyVal where
  | none
  | str (s : String)
  | num (q : ℚ)
deriving DecidableEq, Repr

/-- Python truthiness for `PyVal`: `None` is falsy, a string is truthy iff
nonempty, a number is truthy iff nonzero.  Used by `if not self._dhw`,
`if self._dhw.temp_units`, and `if target_temp` in the source. -/
def truthy : PyVal → Bool
  | .none => false
  | .str s => decide (s ≠ "")
  | .num q => decide (q ≠ 0)

/-- The constant `STATE_OFF` imported from `homeassistant.components.water_heater`. -/
def STATE_OFF : PyVal := .str "off"

/-- The constant `TEMP_CELSIUS` imported from `homeassistant.const`. -/
def TEMP_CELSIUS : PyVal := .str "°C"

/-- The constant `TEMP_FAHRENHEIT` from `homeassistant.const`. -/
def TEMP_FAHRENHEIT : PyVal := .str "°F"

/-- Modelled from the spec: the integration's `const.py` (not in `src/`)
supplies `DEFAULT_MIN_TEMP`, a fixed default lower bound for the target
temperature used when the device does not report bounds. -/
def DEFAULT_MIN_TEMP : PyVal := .num 0

/-- Modelled from the spec: the integration's `const.py` (not in `src/`)
supplies `DEFAULT_MAX_TEMP`, a fixed default upper bound for the target
temperature used when the device does not report bounds. -/
def DEFAULT_MAX_TEMP : PyVal := .num 100

/-- Modelled from the spec: the integration's `const.py` (not in `src/`)
supplies `UNITS_CONVERTER`, a dictionary mapping the device-reported units
code to the Host unit enum (Celsius/Fahrenheit); `UNITS_CONVERTER.get k`
returns `None` for an unknown key, as Python `dict.get` does. -/
def UNITS_CONVERTER.get (k : PyVal) : PyVal :=
  if k = .str "C" then TEMP_CELSIUS
  else if k = .str "F" then TEMP_FAHRENHEIT
  else .none

/-- The fields of the vendor DHW circuit object read by the wrapper. -/
structure DhwCircuit where
  name : String
  update_initialized : Bool
  temp_units : PyVal
  state : PyVal
  target_temperature : PyVal
  current_temp : PyVal
  ha_modes : List PyVal
  ha_mode : PyVal
  min_temp : PyVal
  max_temp : PyVal
  setpoint : PyVal
deriving DecidableEq, Repr

/-- The mutable attributes of a `BoschWaterHeater` instance, i.e. the
cached snapshot together with the fixed handles set in `__init__`. -/
structure HeaterState where
  dhw : Option DhwCircuit
  name : String
  uuid : String
  unique_id : String
  mode : PyVal
  state : PyVal
  target_temperature : PyVal
  current_temperature : PyVal
  current_setpoint : PyVal
  temperature_units : PyVal
  max_temp : PyVal
  low_temp : PyVal
  target_temp_off : PyVal
  operation_list : List PyVal
deriving DecidableEq, Repr

/-- Translation of `BoschWaterHeater.__init__` (the constructor is only
ever called with an actual circuit object, whose `name` it reads). -/
def HeaterState.init (uuid : String) (dhw : DhwCircuit) : HeaterState :=
  { dhw := some dhw
    name := dhw.name
    uuid := uuid
    unique_id := dhw.name ++ uuid
    mode := .none
    state := .none
    target_temperature := .none
    current_temperature := .none
    current_setpoint := .none
    temperature_units := TEMP_CELSIUS
    max_temp := DEFAULT_MAX_TEMP
    low_temp := DEFAULT_MIN_TEMP
    target_temp_off := .num 0
    operation_list := [] }

/-- Translation of `BoschWaterHeater.unique_id` (property getter). -/
def HeaterState.unique_id_prop (s : HeaterState) : String :=
  s.unique_id

/-- Translation of `BoschWaterHeater.update`.  Returns the new state and
the number of `async_schedule_update_ha_state` calls issued.  The
disjunction mirrors the source literally, including the `==` (rather
than `!=`) comparison on the operation list. -/
def HeaterState.update (s : HeaterState) : HeaterState × Nat :=
  match s.dhw with
  | none => (s, 0)
  | some d =>
    if !d.update_initialized then (s, 0)
    else
      let s1 := { s with
        temperature_units :=
          UNITS_CONVERTER.get (if truthy d.temp_units then d.temp_units else .str "C") }
      if s1.state ≠ d.state
          ∨ s1.operation_list = d.ha_modes
          ∨ s1.current_temperature ≠ d.current_temp
          ∨ s1.low_temp ≠ d.min_temp
          ∨ s1.max_temp ≠ d.max_temp then
        ({ s1 with
            state := d.state
            target_temperature := d.target_temperature
            current_temperature := d.current_temp
            operation_list := d.ha_modes
            mode := d.ha_mode
            low_temp := d.min_temp
            max_temp := d.max_temp }, 1)
      else (s1, 0)

/-- Translation of `BoschWaterHeater.async_set_temperature`.  Its input is
`kwargs.get(ATTR_TEMPERATURE)` (i.e. `PyVal.none` when the keyword bundle
has no temperature).  Returns the (unchanged, as the method assigns no
attribute) state, the list of `set_temperature` calls forwarded to the
device model, and whether `_LOGGER.error` was called. -/
def HeaterState.async_set_temperature (s : HeaterState) (target_temp : PyVal) :
    HeaterState × List PyVal × Bool :=
  if truthy target_temp ∧ target_temp ≠ s.target_temperature then
    (s, [target_temp], false)
  else
    (s, [], true)

/-- Translation of `BoschWaterHeater.async_set_operation_mode`, as a
function of the numeric status returned by `set_ha_mode`. -/
def async_set_operation_mode (status : ℚ) : Bool :=
  if status > 0 then true else false

/-- The constant `SUPPORT_TARGET_TEMPERATURE` from Home Assistant. -/
def SUPPORT_TARGET_TEMPERATURE : Nat := 1

/-- The constant `SUPPORT_OPERATION_MODE` from Home Assistant. -/
def SUPPORT_OPERATION_MODE : Nat := 2

/-- Translation of `SUPPORT_FLAGS_HEATER = SUPPORT_TARGET_TEMPERATURE | SUPPORT_OPERATION_MODE`. -/
def SUPPORT_FLAGS_HEATER : Nat := SUPPORT_TARGET_TEMPERATURE ||| SUPPORT_OPERATION_MODE

/-- Translation of `BoschWaterHeater.supported_features` (reads the live
device fields, not the cached snapshot). -/
def supported_features (d : DhwCircuit) : Nat :=
  if d.ha_mode = STATE_OFF ∨ d.setpoint = STATE_OFF then SUPPORT_OPERATION_MODE
  else SUPPORT_FLAGS_HEATER

/-- One Host-initiated operation on a projector instance; `update`,
`async_set_temperature` (with the extracted temperature argument),
`async_set_operation_mode` (with the status the device reports) and
`service_charge` (which only forwards to the device model). -/
inductive Op where
  | update
  | setTemperature (t : PyVal)
  | setOperationMode (status : ℚ)
  | serviceCharge (v : PyVal)
deriving DecidableEq, Repr

/-- The state reached after one operation: `update` mutates the snapshot;
`async_set_temperature` assigns no attribute (see
`HeaterState.async_set_temperature`); `async_set_operation_mode` and
`service_charge` only talk to the device model. -/
def applyOp (s : HeaterState) : Op → HeaterState
  | .update => s.update.1
  | .setTemperature t => (s.async_set_temperature t).1
  | .setOperationMode _ => s
  | .serviceCharge _ => s

/-! Concrete fixtures used by counterexamples and witnesses. -/

/-- A device circuit whose reported monitored fields match `stateC1`,
including an unchanged mode list, but with a new target temperature. -/
def dhwC1 : DhwCircuit :=
  { name := "dhw1"
    update_initialized := true
    temp_units := .str "F"
    state := .str "dhw_charging"
    target_temperature := .num 60
    current_temp := .num 45
    ha_modes := [.str "eco", .str "performance"]
    ha_mode := .str "eco"
    min_temp := .num 30
    max_temp := .num 65
    setpoint := .num 55 }

/-- A cached snapshot agreeing with `dhwC1` on state, current temperature,
min temp, max temp and the operation list. -/
def stateC1 : HeaterState :=
  { dhw := some dhwC1
    name := "dhw1"
    uuid := "u1"
    unique_id := "dhw1u1"
    mode := .str "eco"
    state := .str "dhw_charging"
    target_temperature := .num 50
    current_temperature := .num 45
    current_setpoint := .none
    temperature_units := TEMP_CELSIUS
    max_temp := .num 65
    low_temp := .num 30
    target_temp_off := .num 0
    operation_list := [.str "eco", .str "performance"] }

/-- Claim C1 as written is false on the code: with the circuit present and
initialized and state, current_temp, min_temp and max_temp all equal to
the cached snapshot, but the mode list unchanged as well, the `==`
comparison on the operation list makes the change condition true, so a
Host-update notification is issued and the cached target temperature is
overwritten with a new device value. -/
theorem C1_counterexample :
    stateC1.dhw = some dhwC1 ∧
    dhwC1.update_initialized = true ∧
    stateC1.state = dhwC1.state ∧
    stateC1.current_temperature = dhwC1.current_temp ∧
    stateC1.low_temp = dhwC1.min_temp ∧
    stateC1.max_temp = dhwC1.max_temp ∧
    stateC1.update.2 = 1 ∧
    stateC1.update.1.target_temperature ≠ stateC1.target_temperature := by
  decide

/-- Claim C1 amended: if additionally the cached operation-mode list
differs from the device-reported mode list, update issues no Host-update
notification and leaves every cached snapshot field except the
temperature unit unchanged. -/
theorem C1_amended (s : HeaterState) (d : DhwCircuit)
    (hd : s.dhw = some d) (hi : d.update_initialized = true)
    (hs : s.state = d.state)
    (hc : s.current_temperature = d.current_temp)
    (hmin : s.low_temp = d.min_temp)
    (hmax : s.max_temp = d.max_temp)
    (hops : s.operation_list ≠ d.ha_modes) :
    s.update.2 = 0 ∧
    s.update.1.state = s.state ∧
    s.update.1.target_temperature = s.target_temperature ∧
    s.update.1.current_temperature = s.current_temperature ∧
    s.update.1.operation_list = s.operation_list ∧
    s.update.1.mode = s.mode ∧
    s.update.1.low_temp = s.low_temp ∧
    s.update.1.max_temp = s.max_temp := by
  unfold HeaterState.update
  rw [hd]
  simp [hi, hs, hc, hmin, hmax, hops]

/-- A cached snapshot with target temperature 50, used by the
set-temperature claims. -/
def stateC2 : HeaterState :=
  { stateC1 with target_temperature := .num 50 }

/-- Claim C2 as written is false on the code: the literal numeric value 0
is different from the cached target temperature 50, yet because the
source guards with Python truthiness (`if target_temp and ...`) the value
0 is falsy and zero calls to the device set-temperature method are made
(and an error is logged instead). -/
theorem C2_counterexample :
    PyVal.num 0 ≠ stateC2.target_temperature ∧
    (stateC2.async_set_temperature (.num 0)).2.1 = [] ∧
    (stateC2.async_set_temperature (.num 0)).2.2 = true := by
  decide

/-- Claim C2 amended: for every call whose keyword bundle contains a
truthy (in particular any nonzero) numeric temperature value different
from the cached target temperature, exactly one call to the device
model's set_temperature method is made, with that value as its argument. -/
theorem C2_amended (s : HeaterState) (t : PyVal)
    (ht : truthy t = true) (hne : t ≠ s.target_temperature) :
    (s.async_set_temperature t).2.1 = [t] := by
  unfold HeaterState.async_set_temperature
  rw [if_pos ⟨ht, hne⟩]

/-- Witness for `C2_amended` at the concrete value 55 against a cached
target of 50. -/
theorem C2_amended_witness :
    truthy (.num 55) = true ∧
    PyVal.num 55 ≠ stateC2.target_temperature ∧
    (stateC2.async_set_temperature (.num 55)).2.1 = [.num 55] :=
  ⟨by decide, by decide, C2_amended stateC2 (.num 55) (by decide) (by decide)⟩

/-- Claim C3: when the circuit is present and initialized and the
device-reported state differs from the cached state, all tracked snapshot
fields are overwritten with the freshly read device values in the same
call and exactly one Host-update notification is issued. -/
theorem C3_state_changed_full_refresh (s : HeaterState) (d : DhwCircuit)
    (hd : s.dhw = some d) (hi : d.update_initialized = true)
    (hs : s.state ≠ d.state) :
    s.update.1.state = d.state ∧
    s.update.1.target_temperature = d.target_temperature ∧
    s.update.1.current_temperature = d.current_temp ∧
    s.update.1.operation_list = d.ha_modes ∧
    s.update.1.mode = d.ha_mode ∧
    s.update.1.low_temp = d.min_temp ∧
    s.update.1.max_temp = d.max_temp ∧
    s.update.2 = 1 := by
  unfold HeaterState.update
  rw [hd]
  simp [hi, hs]

/-- A cached snapshot whose state differs from the one `dhwC1` reports. -/
def stateC3 : HeaterState :=
  { stateC1 with state := .str "off" }

/-- Witness for `C3_state_changed_full_refresh`: a snapshot whose cached
state differs from the device-reported state. -/
theorem C3_witness :
    stateC3.dhw = some dhwC1 ∧
    dhwC1.update_initialized = true ∧
    stateC3.state ≠ dhwC1.state ∧
    (stateC3.update.1.state = dhwC1.state ∧
     stateC3.update.1.target_temperature = dhwC1.target_temperature ∧
     stateC3.update.1.current_temperature = dhwC1.current_temp ∧
     stateC3.update.1.operation_list = dhwC1.ha_modes ∧
     stateC3.update.1.mode = dhwC1.ha_mode ∧
     stateC3.update.1.low_temp = dhwC1.min_temp ∧
     stateC3.update.1.max_temp = dhwC1.max_temp ∧
     stateC3.update.2 = 1) :=
  ⟨rfl, rfl, by decide, C3_state_changed_full_refresh stateC3 dhwC1 rfl rfl (by decide)⟩

/-- Claim C4: when the circuit handle is absent (None, hence falsy) or the
circuit's update_initialized flag is falsy, update returns immediately
with the snapshot unmodified and no Host-update notification. -/
theorem C4_uninitialized_noop (s : HeaterState)
    (h : s.dhw = none ∨ ∃ d, s.dhw = some d ∧ d.update_initialized = false) :
    s.update = (s, 0) := by
  unfold HeaterState.update
  rcases h with h | ⟨d, hd, hi⟩
  · rw [h]
  · rw [hd]
    simp [hi]

/-- A device circuit that has not completed its initial data load. -/
def dhwC4 : DhwCircuit :=
  { dhwC1 with update_initialized := false }

/-- A cached snapshot holding an uninitialized circuit. -/
def stateC4 : HeaterState :=
  { stateC1 with dhw := some dhwC4 }

/-- Witness for `C4_uninitialized_noop` on a circuit whose
update_initialized flag is false. -/
theorem C4_witness :
    (stateC4.dhw = some dhwC4 ∧ dhwC4.update_initialized = false) ∧
    stateC4.update = (stateC4, 0) :=
  ⟨⟨rfl, rfl⟩, C4_uninitialized_noop stateC4 (Or.inr ⟨dhwC4, rfl, rfl⟩)⟩

/-- Claim C5: when the keyword bundle has no temperature value (so
`kwargs.get` yields None) or the value equals the cached target
temperature, zero calls are made to the device set-temperature method and
an error is logged (and the method returns normally). -/
theorem C5_missing_or_equal_dropped (s : HeaterState) (t : PyVal)
    (h : t = PyVal.none ∨ t = s.target_temperature) :
    (s.async_set_temperature t).2.1 = [] ∧
    (s.async_set_temperature t).2.2 = true := by
  unfold HeaterState.async_set_temperature
  rcases h with h | h
  · subst h
    simp [truthy]
  · subst h
    simp

/-- Witness for `C5_missing_or_equal_dropped` with the value equal to the
cached target temperature. -/
theorem C5_witness :
    PyVal.num 50 = stateC2.target_temperature ∧
    ((stateC2.async_set_temperature (.num 50)).2.1 = [] ∧
     (stateC2.async_set_temperature (.num 50)).2.2 = true) :=
  ⟨by decide, C5_missing_or_equal_dropped stateC2 (.num 50) (Or.inr (by decide))⟩

/-- Claim C6: async_set_operation_mode returns true exactly when the
numeric status returned by the device model's mode-setter is greater
than zero. -/
theorem C6_mode_status (status : ℚ) :
    async_set_operation_mode status = true ↔ 0 < status := by
  unfold async_set_operation_mode
  split <;> simp_all

/-- Claim C7: supported_features returns the mode-control-only flag
exactly when the device's current mode or its setpoint equals the "off"
sentinel, and the combined temperature-plus-mode-control flags otherwise. -/
theorem C7_supported_features (d : DhwCircuit) :
    ((d.ha_mode = STATE_OFF ∨ d.setpoint = STATE_OFF) →
      supported_features d = SUPPORT_OPERATION_MODE) ∧
    (¬(d.ha_mode = STATE_OFF ∨ d.setpoint = STATE_OFF) →
      supported_features d = SUPPORT_FLAGS_HEATER) := by
  unfold supported_features
  constructor
  · intro h
    rw [if_pos h]
  · intro h
    rw [if_neg h]

/-- A device circuit whose mode is the "off" sentinel. -/
def dhwOff : DhwCircuit :=
  { dhwC1 with ha_mode := .str "off" }

/-- Witness for `C7_supported_features` on an "off" circuit and on a
normal circuit. -/
theorem C7_witness :
    supported_features dhwOff = SUPPORT_OPERATION_MODE ∧
    supported_features dhwC1 = SUPPORT_FLAGS_HEATER :=
  ⟨(C7_supported_features dhwOff).1 (Or.inl (by decide)),
   (C7_supported_features dhwC1).2 (by decide)⟩

/-- Helper: a refresh never modifies the unique id (neither branch of
update writes `_unique_id`). -/
theorem update_preserves_unique_id (s : HeaterState) :
    s.update.1.unique_id = s.unique_id := by
  unfold HeaterState.update
  cases hd : s.dhw with
  | none => rfl
  | some d =>
    by_cases hi : d.update_initialized
    · simp [hi]
      split <;> rfl
    · simp [hi]

/-- Helper: no Host-initiated operation modifies the unique id. -/
theorem applyOp_preserves_unique_id (s : HeaterState) (op : Op) :
    (applyOp s op).unique_id = s.unique_id := by
  cases op with
  | update => exact update_preserves_unique_id s
  | setTemperature t =>
    show (s.async_set_temperature t).1.unique_id = s.unique_id
    unfold HeaterState.async_set_temperature
    split <;> rfl
  | setOperationMode status => rfl
  | serviceCharge v => rfl

/-- Helper: folding any list of operations over a state leaves the
unique id unchanged. -/
theorem foldl_preserves_unique_id (t : HeaterState) (ops : List Op) :
    (ops.foldl applyOp t).unique_id = t.unique_id := by
  induction ops generalizing t with
  | nil => rfl
  | cons op rest ih =>
    rw [List.foldl_cons, ih, applyOp_preserves_unique_id]

/-- Claim C8: the unique id is set at construction to the device name
concatenated with the hub-connection identifier, and no sequence of
operations (refresh, set-temperature, set-operation-mode, service charge)
ever changes what the unique_id property returns. -/
theorem C8_unique_id_stable (uuid : String) (dhw : DhwCircuit) (ops : List Op) :
    (HeaterState.init uuid dhw).unique_id_prop = dhw.name ++ uuid ∧
    (ops.foldl applyOp (HeaterState.init uuid dhw)).unique_id_prop =
      (HeaterState.init uuid dhw).unique_id_prop := by
  refine ⟨rfl, ?_⟩
  unfold HeaterState.unique_id_prop
  exact foldl_preserves_unique_id (HeaterState.init uuid dhw) ops

/-- A device circuit reporting a different mode list and Fahrenheit
units, but otherwise matching `stateC9`. -/
def dhwC9 : DhwCircuit :=
  { dhwC1 with ha_modes := [.str "eco"] }

/-- A cached snapshot agreeing with `dhwC9` on all monitored fields
except the operation list, with a Celsius cached unit. -/
def stateC9 : HeaterState :=
  { stateC1 with dhw := some dhwC9 }

/-- Witness for `C1_amended`: against `dhwC9` the snapshot `stateC9`
agrees on all four monitored fields while its operation list differs, so
the refresh is silent and the tracked fields keep their values. -/
theorem C1_amended_witness :
    (stateC9.dhw = some dhwC9 ∧ dhwC9.update_initialized = true ∧
     stateC9.state = dhwC9.state ∧
     stateC9.current_temperature = dhwC9.current_temp ∧
     stateC9.low_temp = dhwC9.min_temp ∧
     stateC9.max_temp = dhwC9.max_temp ∧
     stateC9.operation_list ≠ dhwC9.ha_modes) ∧
    (stateC9.update.2 = 0 ∧
     stateC9.update.1.state = stateC9.state ∧
     stateC9.update.1.target_temperature = stateC9.target_temperature ∧
     stateC9.update.1.current_temperature = stateC9.current_temperature ∧
     stateC9.update.1.operation_list = stateC9.operation_list ∧
     stateC9.update.1.mode = stateC9.mode ∧
     stateC9.update.1.low_temp = stateC9.low_temp ∧
     stateC9.update.1.max_temp = stateC9.max_temp) :=
  ⟨⟨rfl, rfl, rfl, rfl, rfl, rfl, by decide⟩,
   C1_amended stateC9 dhwC9 rfl rfl rfl rfl rfl rfl (by decide)⟩

/-- Claim C9: whenever the circuit is present and initialized, update
unconditionally recomputes the cached temperature unit from the device
unit code through the units converter (defaulting the code to Celsius
when falsy), in both the notifying and the non-notifying branch. -/
theorem C9_units_recomputed (s : HeaterState) (d : DhwCircuit)
    (hd : s.dhw = some d) (hi : d.update_initialized = true) :
    s.update.1.temperature_units =
      UNITS_CONVERTER.get (if truthy d.temp_units then d.temp_units else .str "C") := by
  unfold HeaterState.update
  rw [hd]
  simp [hi]
  split <;> rfl

/-- Witness for `C9_units_recomputed`: a refresh that issues no
Host-update notification still overwrites the cached unit (here from
Celsius to Fahrenheit). -/
theorem C9_witness :
    (stateC9.dhw = some dhwC9 ∧ dhwC9.update_initialized = true) ∧
    stateC9.update.1.temperature_units =
      UNITS_CONVERTER.get (if truthy dhwC9.temp_units then dhwC9.temp_units else .str "C") ∧
    stateC9.update.2 = 0 ∧
    stateC9.update.1.temperature_units ≠ stateC9.temperature_units :=
  ⟨⟨rfl, rfl⟩, C9_units_recomputed stateC9 dhwC9 rfl rfl, by decide, by decide⟩

/-- Claim C10: async_set_temperature never mutates the cached snapshot;
whatever temperature value is extracted from the keyword bundle, and
whether or not a device call is forwarded, the returned state is exactly
the input state. -/
theorem C10_set_temperature_frame (s : HeaterState) (t : PyVal) :
    (s.async_set_temperature t).1 = s := by
  unfold HeaterState.async_set_temperature
  split <;> rfl
